import Mathlib

/-!
Verification development for the LLM utility module (autogpt/llm_utils.py):
a shallow embedding of the continuation stitcher (sendReq), the retrying
chat-completion wrapper (create_chat_completion) and the retrying embedding
wrapper (create_embedding_with_ada), together with theorems about their
backoff, failure-classification, advisory and stitching behaviour.

Provider network calls are modelled by consuming a caller-supplied list of
outcomes (one per attempted call, in order); observable side effects
(requests issued, advisory emission, backoff sleeps, the final failure log)
are collected in an event trace.
-/

namespace LlmUtils

/-- Fixed per-round token ceiling for the Claude path (source line 14). -/
def MAX_TOKEN_ONCE : Nat := 4096

/-- Fixed continuation cue (source line 15). -/
def CONTINUE_PROMPT : String := "... continue"

/-- Number of attempts of the retry loops (source lines 106 and 183). -/
def num_retries : Nat := 10

/-- A Claude completion response: the completion text and the stop reason
(the source reads response[completion] and response[stop_reason]). -/
structure Resp where
  completion : String
  stop_reason : String
deriving DecidableEq, Repr

/-- A request issued by the model of the private helper around
client.completion (source lines 22-29): the four keyword arguments. -/
structure ClaudeReq where
  prompt : String
  stop_sequences : List String
  model : String
  max_tokens_to_sample : Nat
deriving DecidableEq, Repr

/-- Failure modes of the sendReq model. indexError models a Python
IndexError from data[-1] or d[0] on an empty string; outOfResponses is a
model artifact for when the supplied response list is shorter than the
number of provider calls the loop makes. -/
inductive SendErr where
  | outOfResponses
  | indexError
deriving DecidableEq, Repr

/-- The fragment join of sendReq (source lines 44-47):
if data[-1] != ' ' and d[0] != ' ' then data + " " + d else data + d,
with Python evaluation order: data[-1] faults first when data is empty;
the conjunction short-circuits, so d[0] is only read when data does not
end in a space. -/
def joinCompletion (data d : String) : Option String :=
  if data = "" then none
  else if data.back = ' ' then some (data ++ d)
  else if d = "" then none
  else if d.front = ' ' then some (data ++ d)
  else some (data ++ " " ++ d)

/-- The continuation loop of sendReq (source lines 39-47). Arguments:
the remaining provider responses, the running prompt transcript, the
accumulated output buffer data, and the stop reason of the previous
response. Returns the list of requests issued by the loop and either the
assembled text or a failure. -/
def sendReqLoop (human ai claudeModel : String) (maxTok : Nat) :
    List Resp → String → String → String → List ClaudeReq × Except SendErr String
  | resps, prompt, data, stop =>
    if stop = "max_tokens" then
      let prompt2 := prompt ++ human ++ " " ++ CONTINUE_PROMPT ++ " " ++ ai
      let req : ClaudeReq := ⟨prompt2, [human, ai], claudeModel, maxTok⟩
      match resps with
      | [] => ([req], Except.error SendErr.outOfResponses)
      | r :: rest =>
        match joinCompletion data r.completion with
        | none => ([req], Except.error SendErr.indexError)
        | some data2 =>
          let res := sendReqLoop human ai claudeModel maxTok rest
            (prompt2 ++ r.completion) data2 r.stop_reason
          (req :: res.1, res.2)
    else ([], Except.ok data)

/-- Model of sendReq (source lines 31-48): builds the initial prompt
human + " " + question + " " + ai, issues the first request, then runs the
continuation loop. human and ai stand for the anthropic HUMAN_PROMPT and
AI_PROMPT turn markers, claudeModel for CFG.claude_mode; resps supplies
the provider responses in order. -/
def sendReq (human ai claudeModel : String) (maxTok : Nat)
    (resps : List Resp) (question : String) :
    List ClaudeReq × Except SendErr String :=
  let prompt := human ++ " " ++ question ++ " " ++ ai
  let req : ClaudeReq := ⟨prompt, [human, ai], claudeModel, maxTok⟩
  match resps with
  | [] => ([req], Except.error SendErr.outOfResponses)
  | r :: rest =>
    let res := sendReqLoop human ai claudeModel maxTok rest
      (prompt ++ r.completion) r.completion r.stop_reason
    (req :: res.1, res.2)

/-- The configuration fields read by the two retry wrappers
(Config in the source). get_azure_deployment_id_for_model models the
method of the same name; its argument is the possibly-absent model name. -/
structure Config where
  use_claude : Bool
  use_azure : Bool
  debug_mode : Bool
  claude_mode : String
  get_azure_deployment_id_for_model : Option String → String

/-- A chat message: role and content (the dicts in the messages list). -/
abbrev Msg := String × String

/-- Rendering of the messages list used when it is interpolated into the
Claude prompt string (f-string in sendReq receives the raw list). -/
def reprMessages (ms : List Msg) : String := toString ms

/-- Outcome of one provider call attempt, supplied by the environment:
a normal return carrying the provider response, a RateLimitError, or an
APIError carrying its http_status. -/
inductive Outcome (ρ : Type) where
  | success (resp : ρ)
  | rateLimit
  | apiError (http_status : Nat)
deriving DecidableEq, Repr

/-- Map over the success payload of an outcome. -/
def Outcome.map {ρ σ : Type} (f : ρ → σ) : Outcome ρ → Outcome σ
  | Outcome.success r => Outcome.success (f r)
  | Outcome.rateLimit => Outcome.rateLimit
  | Outcome.apiError s => Outcome.apiError s

/-- A successful chat-path response: the string returned by sendReq on the
Claude branch, or an API response carrying the list of choices (each
reduced to its message content, the only field the source reads). -/
inductive ChatResp where
  | claude (text : String)
  | api (choices : List String)
deriving DecidableEq, Repr

/-- The provider request issued by one attempt of create_chat_completion
(source lines 119-135): the Claude branch calls sendReq(messages) with the
default ceiling; the Azure branch passes a deployment_id; the plain branch
passes the model name. -/
inductive ChatRequest where
  | claude (question : String) (max_tokens_to_sample : Nat)
  | azure (deployment_id : String) (model : Option String) (messages : List Msg)
      (temperature : Int) (max_tokens : Option Nat)
  | openai (model : Option String) (messages : List Msg)
      (temperature : Int) (max_tokens : Option Nat)
deriving DecidableEq, Repr

/-- The request one attempt of create_chat_completion issues, as a function
of the configuration and the call arguments. -/
def attemptRequest (cfg : Config) (messages : List Msg) (model : Option String)
    (temperature : Int) (max_tokens : Option Nat) : ChatRequest :=
  if cfg.use_claude then ChatRequest.claude (reprMessages messages) MAX_TOKEN_ONCE
  else if cfg.use_azure then
    ChatRequest.azure (cfg.get_azure_deployment_id_for_model model)
      model messages temperature max_tokens
  else ChatRequest.openai model messages temperature max_tokens

/-- Observable events of a create_chat_completion run: a provider request,
the one-time rate-limit advisory (logger.double_check, lines 143-148), a
blocking sleep of the given number of seconds, and the post-loop failure
log (lines 163-169). Debug-mode console prints are not modelled. -/
inductive CCCEvent where
  | request (req : ChatRequest)
  | advisory
  | sleep (seconds : Nat)
  | failLog
deriving DecidableEq, Repr

/-- How the attempt loop of create_chat_completion terminates: a response
was obtained (break, line 136), an error was re-raised, the loop ran all
attempts without a response, or the supplied outcome list was too short
(model artifact). -/
inductive LoopExit where
  | gotResponse (resp : ChatResp)
  | raised (http_status : Nat)
  | fellThrough
  | outOfOutcomes
deriving DecidableEq, Repr

/-- The attempt loop of create_chat_completion (source lines 116-161).
Arguments: remaining outcomes, the current attempt index, and the
warned_user flag. backoff = 2 ^ (attempt + 2) (line 117). A RateLimitError
emits the advisory when warned_user is still false, then sleeps and
retries; an APIError with http_status 502 sleeps and retries unless it is
the last attempt, where it is re-raised; any other APIError is re-raised
at once. The sleep at the bottom of the loop body runs after every caught
exception. -/
def cccLoop (cfg : Config) (messages : List Msg) (model : Option String)
    (temperature : Int) (max_tokens : Option Nat) :
    List (Outcome ChatResp) → Nat → Bool → List CCCEvent × LoopExit
  | outs, attempt, warned_user =>
    if num_retries ≤ attempt then ([], LoopExit.fellThrough)
    else
      let req := attemptRequest cfg messages model temperature max_tokens
      let backoff := 2 ^ (attempt + 2)
      match outs with
      | [] => ([], LoopExit.outOfOutcomes)
      | o :: rest =>
        match o with
        | Outcome.success r => ([CCCEvent.request req], LoopExit.gotResponse r)
        | Outcome.rateLimit =>
          let warnEvs := if warned_user then [] else [CCCEvent.advisory]
          let res := cccLoop cfg messages model temperature max_tokens rest
            (attempt + 1) true
          (CCCEvent.request req :: warnEvs ++ CCCEvent.sleep backoff :: res.1, res.2)
        | Outcome.apiError s =>
          if s = 502 then
            if attempt = num_retries - 1 then
              ([CCCEvent.request req], LoopExit.raised s)
            else
              let res := cccLoop cfg messages model temperature max_tokens rest
                (attempt + 1) warned_user
              (CCCEvent.request req :: CCCEvent.sleep backoff :: res.1, res.2)
          else ([CCCEvent.request req], LoopExit.raised s)

/-- Result of a create_chat_completion call: a returned string, a
propagated provider error (with its http_status), the RuntimeError raised
after exhaustion in debug mode (line 171), process exit via quit(1)
(line 173), a response of the wrong shape for the active branch (model
artifact; includes an empty choices list), or an outcome list that was too
short (model artifact). -/
inductive CCCResult where
  | ok (text : String)
  | raised (http_status : Nat)
  | runtimeError
  | exited (code : Nat)
  | badResponse
  | stuck
deriving DecidableEq, Repr

/-- Model of create_chat_completion (source lines 88-178): runs the
attempt loop from attempt 0 with warned_user false; on fall-through with
no response, logs the failure notice and either raises RuntimeError
(debug mode) or exits with status 1; on success returns the response
directly on the Claude branch and choices[0].message content otherwise. -/
def create_chat_completion (cfg : Config) (messages : List Msg)
    (model : Option String) (temperature : Int) (max_tokens : Option Nat)
    (outs : List (Outcome ChatResp)) : List CCCEvent × CCCResult :=
  let res := cccLoop cfg messages model temperature max_tokens outs 0 false
  match res.2 with
  | LoopExit.gotResponse r =>
    if cfg.use_claude then
      match r with
      | ChatResp.claude s => (res.1, CCCResult.ok s)
      | ChatResp.api _ => (res.1, CCCResult.badResponse)
    else
      match r with
      | ChatResp.api choices =>
        match choices.head? with
        | some c => (res.1, CCCResult.ok c)
        | none => (res.1, CCCResult.badResponse)
      | ChatResp.claude _ => (res.1, CCCResult.badResponse)
  | LoopExit.raised s => (res.1, CCCResult.raised s)
  | LoopExit.outOfOutcomes => (res.1, CCCResult.stuck)
  | LoopExit.fellThrough =>
    if cfg.debug_mode then (res.1 ++ [CCCEvent.failLog], CCCResult.runtimeError)
    else (res.1 ++ [CCCEvent.failLog], CCCResult.exited 1)

/-- A successful embedding response payload: the data list of the response,
each entry reduced to its embedding vector (the source reads
response data index 0 then its embedding field). -/
abbrev EmbData := List (List Int)

/-- The provider request issued by one attempt of create_embedding_with_ada
(source lines 187-197). -/
inductive EmbRequest where
  | azure (engine : String) (input : List String)
  | openai (model : String) (input : List String)
deriving DecidableEq, Repr

/-- The request one attempt of create_embedding_with_ada issues. -/
def embRequest (cfg : Config) (text : String) : EmbRequest :=
  if cfg.use_azure then
    EmbRequest.azure
      (cfg.get_azure_deployment_id_for_model (some "text-embedding-ada-002")) [text]
  else EmbRequest.openai "text-embedding-ada-002" [text]

/-- Observable events of a create_embedding_with_ada run. There is no
advisory event: the embedding loop never warns the user. -/
inductive EmbEvent where
  | request (req : EmbRequest)
  | sleep (seconds : Nat)
deriving DecidableEq, Repr

/-- How the attempt loop of create_embedding_with_ada terminates: an early
return with the first entry's vector, an IndexError from indexing an empty
data list, a re-raised APIError, fall-through after all attempts, or a
too-short outcome list (model artifact). -/
inductive EmbExit where
  | returned (embedding : List Int)
  | raisedIndex
  | raised (http_status : Nat)
  | fellThrough
  | outOfOutcomes
deriving DecidableEq, Repr

/-- The attempt loop of create_embedding_with_ada (source lines 184-212).
Same ceiling and backoff formula as the chat loop; a RateLimitError is
silently passed over (no advisory, no warned_user flag); APIError handling
matches the chat loop. On success the function returns
data[0]["embedding"] immediately. -/
def embLoop (cfg : Config) (text : String) :
    List (Outcome EmbData) → Nat → List EmbEvent × EmbExit
  | outs, attempt =>
    if num_retries ≤ attempt then ([], EmbExit.fellThrough)
    else
      let req := embRequest cfg text
      let backoff := 2 ^ (attempt + 2)
      match outs with
      | [] => ([], EmbExit.outOfOutcomes)
      | o :: rest =>
        match o with
        | Outcome.success data =>
          match data.head? with
          | some entry => ([EmbEvent.request req], EmbExit.returned entry)
          | none => ([EmbEvent.request req], EmbExit.raisedIndex)
        | Outcome.rateLimit =>
          let res := embLoop cfg text rest (attempt + 1)
          (EmbEvent.request req :: EmbEvent.sleep backoff :: res.1, res.2)
        | Outcome.apiError s =>
          if s = 502 then
            if attempt = num_retries - 1 then
              ([EmbEvent.request req], EmbExit.raised s)
            else
              let res := embLoop cfg text rest (attempt + 1)
              (EmbEvent.request req :: EmbEvent.sleep backoff :: res.1, res.2)
          else ([EmbEvent.request req], EmbExit.raised s)

/-- Result of a create_embedding_with_ada call. returnedNone models the
implicit None returned when the loop exhausts all attempts and control
falls off the end of the function. -/
inductive EmbResult where
  | ok (embedding : List Int)
  | raised (http_status : Nat)
  | indexError
  | returnedNone
  | stuck
deriving DecidableEq, Repr

/-- Model of create_embedding_with_ada (source lines 181-212). -/
def create_embedding_with_ada (cfg : Config) (text : String)
    (outs : List (Outcome EmbData)) : List EmbEvent × EmbResult :=
  let res := embLoop cfg text outs 0
  match res.2 with
  | EmbExit.returned v => (res.1, EmbResult.ok v)
  | EmbExit.raisedIndex => (res.1, EmbResult.indexError)
  | EmbExit.raised s => (res.1, EmbResult.raised s)
  | EmbExit.fellThrough => (res.1, EmbResult.returnedNone)
  | EmbExit.outOfOutcomes => (res.1, EmbResult.stuck)

/-- Durations of the sleep events of a chat trace, in order. -/
def sleeps (evs : List CCCEvent) : List Nat :=
  evs.filterMap fun e => match e with
    | CCCEvent.sleep n => some n
    | _ => none

/-- Durations of the sleep events of an embedding trace, in order. -/
def embSleeps (evs : List EmbEvent) : List Nat :=
  evs.filterMap fun e => match e with
    | EmbEvent.sleep n => some n
    | _ => none

/-- Number of advisory events in a chat trace. -/
def advisoryCount (evs : List CCCEvent) : Nat :=
  evs.count CCCEvent.advisory

/-- Whether the chat attempt loop, started unwarned at the given attempt
index on the given outcomes, reaches a RateLimitError (and hence emits the
advisory). -/
def hitsRateLimit : List (Outcome ChatResp) → Nat → Bool
  | [], _ => false
  | o :: rest, attempt =>
    if num_retries ≤ attempt then false
    else match o with
      | Outcome.success _ => false
      | Outcome.rateLimit => true
      | Outcome.apiError s =>
        if s = 502 then
          if attempt = num_retries - 1 then false
          else hitsRateLimit rest (attempt + 1)
        else false

/-- A sample non-debug configuration on the plain OpenAI branch. -/
def cfgDefault : Config :=
  ⟨false, false, false, "claude-v1", fun _ => "deployment"⟩

/-- The sample configuration with debug_mode set. -/
def cfgDebug : Config :=
  ⟨false, false, true, "claude-v1", fun _ => "deployment"⟩

/-- A sample configuration with the Claude provider family selected. -/
def cfgClaude : Config :=
  ⟨true, false, false, "claude-v1", fun _ => "deployment"⟩

/-- Correspondence between how the embedding attempt loop and the chat
attempt loop leave their retry loop, stated from the specification's words
that the two share one failure classification: both return a response,
both re-raise the same status, or both exhaust their attempts. An
IndexError while extracting the first embedding entry corresponds to the
chat loop's plain success, since both happen in the success case. -/
def exitsMatch : EmbExit → LoopExit → Prop
  | EmbExit.returned _, LoopExit.gotResponse _ => True
  | EmbExit.raisedIndex, LoopExit.gotResponse _ => True
  | EmbExit.raised s, LoopExit.raised s2 => s = s2
  | EmbExit.fellThrough, LoopExit.fellThrough => True
  | EmbExit.outOfOutcomes, LoopExit.outOfOutcomes => True
  | _, _ => False

end LlmUtils

namespace LlmUtils

/-! Helper lemmas about the continuation stitcher. -/

/-- Every request the continuation loop issues carries the token ceiling,
model name and stop sequences it was started with. -/
theorem sendReqLoop_fields (human ai cm : String) (mt : Nat) :
    ∀ (resps : List Resp) (prompt data stop : String),
      ∀ req ∈ (sendReqLoop human ai cm mt resps prompt data stop).1,
        req.max_tokens_to_sample = mt ∧ req.model = cm
          ∧ req.stop_sequences = [human, ai] := by
  intro resps
  induction resps with
  | nil =>
    intro prompt data stop req hreq
    rw [sendReqLoop] at hreq
    split at hreq
    · simp only [List.mem_singleton] at hreq
      subst hreq
      exact ⟨rfl, rfl, rfl⟩
    · simp at hreq
  | cons r rest ih =>
    intro prompt data stop req hreq
    rw [sendReqLoop] at hreq
    split at hreq
    · rcases hj : joinCompletion data r.completion with _ | data2 <;>
        simp only [hj, List.mem_singleton, List.mem_cons, List.not_mem_nil,
          or_false] at hreq
      · subst hreq
        exact ⟨rfl, rfl, rfl⟩
      · rcases hreq with hreq | hreq
        · subst hreq
          exact ⟨rfl, rfl, rfl⟩
        · exact ih _ _ _ req hreq
    · simp at hreq

/-- Every request sendReq issues carries the token ceiling, model name and
stop sequences of the call. -/
theorem sendReq_fields (human ai cm q : String) (mt : Nat) (resps : List Resp) :
    ∀ req ∈ (sendReq human ai cm mt resps q).1,
      req.max_tokens_to_sample = mt ∧ req.model = cm
        ∧ req.stop_sequences = [human, ai] := by
  intro req hreq
  rcases resps with _ | ⟨r, rest⟩ <;> rw [sendReq.eq_def] at hreq
  · simp only [List.mem_singleton] at hreq
    subst hreq
    exact ⟨rfl, rfl, rfl⟩
  · simp only [List.mem_cons] at hreq
    rcases hreq with hreq | hreq
    · subst hreq
      exact ⟨rfl, rfl, rfl⟩
    · exact sendReqLoop_fields human ai cm mt rest _ _ _ req hreq

/-- The continuation loop stops as soon as the stop reason is anything
other than max_tokens, returning the assembled buffer. -/
theorem sendReqLoop_done (human ai cm : String) (mt : Nat)
    (resps : List Resp) (prompt data stop : String) (h : stop ≠ "max_tokens") :
    sendReqLoop human ai cm mt resps prompt data stop = ([], Except.ok data) := by
  rw [sendReqLoop, if_neg h]

/-- C1 counterexample: the claim's rule would insert no space when a
boundary character is whitespace, but for the fragments "hello\n"
(length-limited) then "world" the code inserts a space although the
newline boundary character is whitespace, yielding "hello\n world"
rather than "hello\nworld". -/
theorem claim1_counterexample :
    (sendReq "H:" "A:" "m" 4096
        [⟨"hello\n", "max_tokens"⟩, ⟨"world", "stop"⟩] "q").2
      = Except.ok "hello\n world"
    ∧ "hello\n world" ≠ "hello\nworld"
    ∧ Char.isWhitespace '\n' = true := by
  refine ⟨rfl, by decide, rfl⟩

/-- C1 (amended): for every non-empty buffer and non-empty fragment, a
single space is inserted between them unless either boundary character is
already a space character; in particular fragments "hello" then "world"
stitch to "hello world", "hello " then "world" to "hello world" with no
double space, and "hello" then " world" to "hello world". -/
theorem claim1_single_space_join (data d : String)
    (hdata : data ≠ "") (hd : d ≠ "") :
    joinCompletion data d
      = some (if data.back ≠ ' ' ∧ d.front ≠ ' '
          then data ++ " " ++ d else data ++ d)
    ∧ (sendReq "H:" "A:" "m" 4096
        [⟨"hello", "max_tokens"⟩, ⟨"world", "stop"⟩] "q").2
      = Except.ok "hello world"
    ∧ (sendReq "H:" "A:" "m" 4096
        [⟨"hello ", "max_tokens"⟩, ⟨"world", "stop"⟩] "q").2
      = Except.ok "hello world"
    ∧ (sendReq "H:" "A:" "m" 4096
        [⟨"hello", "max_tokens"⟩, ⟨" world", "stop"⟩] "q").2
      = Except.ok "hello world" := by
  refine ⟨?_, rfl, rfl, rfl⟩
  unfold joinCompletion
  by_cases h1 : data.back = ' ' <;> by_cases h2 : d.front = ' ' <;>
    simp [hdata, hd, h1, h2]

/-- Witness for the amended C1 at the concrete fragments "hello" and
"world". -/
theorem claim1_witness :
    joinCompletion "hello" "world"
      = some (if "hello".back ≠ ' ' ∧ "world".front ≠ ' '
          then "hello" ++ " " ++ "world" else "hello" ++ "world") :=
  (claim1_single_space_join "hello" "world" (by decide) (by decide)).1

/-- C8: whenever the stop reason is max_tokens, the stitcher issues its
next request with the continuation cue wrapped in the human/assistant turn
markers appended to the transcript, every request carries the same token
ceiling, the loop ends as soon as the stop reason is no longer max_tokens
and returns the assembled buffer; a concrete three-fragment run shows the
transcript growing by prior response text plus cue on every round. -/
theorem claim8_continuation_loop (human ai cm q : String) (mt : Nat)
    (r : Resp) (rest resps : List Resp) (prompt data : String) :
    (∀ req ∈ (sendReq human ai cm mt resps q).1,
        req.max_tokens_to_sample = mt ∧ req.model = cm
          ∧ req.stop_sequences = [human, ai])
    ∧ (∀ stop, stop ≠ "max_tokens" →
        sendReqLoop human ai cm mt resps prompt data stop
          = ([], Except.ok data))
    ∧ (∃ tailReqs result,
        sendReqLoop human ai cm mt (r :: rest) prompt data "max_tokens"
          = (⟨prompt ++ human ++ " " ++ CONTINUE_PROMPT ++ " " ++ ai,
              [human, ai], cm, mt⟩ :: tailReqs, result))
    ∧ sendReq "H:" "A:" "m" 7
        [⟨"one", "max_tokens"⟩, ⟨"two", "max_tokens"⟩, ⟨"three", "stop"⟩] "q"
      = ([⟨"H: q A:", ["H:", "A:"], "m", 7⟩,
          ⟨"H: q A:oneH: ... continue A:", ["H:", "A:"], "m", 7⟩,
          ⟨"H: q A:oneH: ... continue A:twoH: ... continue A:",
            ["H:", "A:"], "m", 7⟩],
         Except.ok "one two three") := by
  refine ⟨sendReq_fields human ai cm q mt resps, ?_, ?_, rfl⟩
  · intro stop h
    exact sendReqLoop_done human ai cm mt resps prompt data stop h
  · rw [sendReqLoop, if_pos rfl]
    rcases hj : joinCompletion data r.completion with _ | data2 <;> simp [hj]

/-- Witness for C8 at a concrete two-fragment run. -/
theorem claim8_witness :
    sendReq "H:" "A:" "m" 7
        [⟨"one", "max_tokens"⟩, ⟨"two", "max_tokens"⟩, ⟨"three", "stop"⟩] "q"
      = ([⟨"H: q A:", ["H:", "A:"], "m", 7⟩,
          ⟨"H: q A:oneH: ... continue A:", ["H:", "A:"], "m", 7⟩,
          ⟨"H: q A:oneH: ... continue A:twoH: ... continue A:",
            ["H:", "A:"], "m", 7⟩],
         Except.ok "one two three") :=
  (claim8_continuation_loop "H:" "A:" "m" "q" 7 ⟨"x", "stop"⟩ [] [] "p" "d").2.2.2

/-- C9 counterexample: an empty continuation fragment arriving while the
stop reason is still max_tokens does not always make the call fail: after
the fragment "hello " (which ends in a space) an empty fragment is joined
without any indexing fault and the call returns "hello "; likewise the
join itself is total at the pair ("hello ", ""), although the fragment is
empty. -/
theorem claim9_counterexample :
    (sendReq "H:" "A:" "m" 4096
        [⟨"hello ", "max_tokens"⟩, ⟨"", "stop"⟩] "q").2
      = Except.ok "hello "
    ∧ joinCompletion "hello " "" = some "hello " := ⟨rfl, rfl⟩

/-- C9 (amended): an empty accumulated buffer always faults (data[-1]
out of range), so an empty first completion under a max_tokens stop reason
fails whatever the next fragment is; for every non-empty buffer, the join
faults exactly when the fragment is empty and the buffer's last character
is not a space, and is total (returns a result) whenever the fragment is
non-empty or the buffer ends in a space; accordingly, an empty
continuation fragment makes the loop fail at once when the buffer does not
end in a space, and is joined without any fault — the loop simply
continues with the buffer unchanged — when it does. -/
theorem claim9_empty_fragment (human ai cm q st : String) (mt : Nat)
    (data d prompt : String) (r : Resp) (rest : List Resp)
    (hdata : data ≠ "") :
    (joinCompletion "" d = none)
    ∧ (joinCompletion data d = none ↔ (d = "" ∧ data.back ≠ ' '))
    ∧ ((d ≠ "" ∨ data.back = ' ') → ∃ out, joinCompletion data d = some out)
    ∧ ((sendReq human ai cm mt (⟨"", "max_tokens"⟩ :: r :: rest) q).2
        = Except.error SendErr.indexError)
    ∧ (data.back ≠ ' ' →
        (sendReqLoop human ai cm mt (⟨"", st⟩ :: rest) prompt data
          "max_tokens").2 = Except.error SendErr.indexError)
    ∧ (data.back = ' ' →
        (sendReqLoop human ai cm mt (⟨"", st⟩ :: rest) prompt data
          "max_tokens").2
        = (sendReqLoop human ai cm mt rest
            (prompt ++ human ++ " " ++ CONTINUE_PROMPT ++ " " ++ ai)
            data st).2) := by
  have hiff : joinCompletion data d = none ↔ (d = "" ∧ data.back ≠ ' ') := by
    unfold joinCompletion
    by_cases h1 : data.back = ' ' <;> by_cases h2 : d = "" <;>
      by_cases h3 : d.front = ' ' <;> simp_all
  refine ⟨by simp [joinCompletion], hiff, ?_, ?_, ?_, ?_⟩
  · intro hcase
    rcases hj : joinCompletion data d with _ | out
    · rw [hiff] at hj
      rcases hcase with hc | hc
      · exact absurd hj.1 hc
      · exact absurd hc hj.2
    · exact ⟨out, rfl⟩
  · rw [sendReq.eq_def]
    simp only []
    rw [sendReqLoop, if_pos rfl]
    simp [joinCompletion]
  · intro hsp
    rw [sendReqLoop, if_pos rfl]
    simp [joinCompletion, hdata, hsp]
  · intro hsp
    rw [sendReqLoop, if_pos rfl]
    have hj : joinCompletion data "" = some data := by
      simp [joinCompletion, hdata, hsp]
    simp [hj]

/-- Witness for the amended C9 at concrete inputs, exercising both a
buffer that does not end in a space and one that does. -/
theorem claim9_witness :
    (joinCompletion "" "world" = none)
    ∧ (joinCompletion "hi" "world" = none ↔ ("world" = "" ∧ "hi".back ≠ ' '))
    ∧ ((("world" : String) ≠ "" ∨ "hi".back = ' ') →
        ∃ out, joinCompletion "hi" "world" = some out)
    ∧ (sendReq "H:" "A:" "m" 4096
        (⟨"", "max_tokens"⟩ :: (⟨"world", "stop"⟩ : Resp) :: []) "q").2
        = Except.error SendErr.indexError
    ∧ (sendReqLoop "H:" "A:" "m" 4096 [⟨"", "stop"⟩] "p" "hi"
        "max_tokens").2 = Except.error SendErr.indexError
    ∧ (sendReqLoop "H:" "A:" "m" 4096 [⟨"", "stop"⟩] "p" "hello "
        "max_tokens").2
      = (sendReqLoop "H:" "A:" "m" 4096 []
          ("p" ++ "H:" ++ " " ++ CONTINUE_PROMPT ++ " " ++ "A:")
          "hello " "stop").2 := by
  have h1 := claim9_empty_fragment "H:" "A:" "m" "q" "stop" 4096 "hi" "world"
    "p" ⟨"world", "stop"⟩ [] (by decide)
  have h2 := claim9_empty_fragment "H:" "A:" "m" "q" "stop" 4096 "hello "
    "world" "p" ⟨"world", "stop"⟩ [] (by decide)
  exact ⟨h1.1, h1.2.1, h1.2.2.1, h1.2.2.2.1, h1.2.2.2.2.1 (by decide),
    h2.2.2.2.2.2 (by decide)⟩

/-! Helper lemmas about the chat retry loop. -/

/-- Once the attempt counter reaches the ceiling, the chat loop stops. -/
theorem cccLoop_stop (cfg : Config) (messages : List Msg)
    (model : Option String) (temperature : Int) (max_tokens : Option Nat)
    (outs : List (Outcome ChatResp)) (attempt : Nat) (w : Bool)
    (h : num_retries ≤ attempt) :
    cccLoop cfg messages model temperature max_tokens outs attempt w
      = ([], LoopExit.fellThrough) := by
  rw [cccLoop, if_pos h]

/-- Unfolding of the chat loop on a RateLimitError: the advisory is
emitted exactly when warned_user is still false, the backoff sleep of
2 ^ (attempt + 2) follows, and the loop retries with warned_user true. -/
theorem cccLoop_rateLimit (cfg : Config) (messages : List Msg)
    (model : Option String) (temperature : Int) (max_tokens : Option Nat)
    (rest : List (Outcome ChatResp)) (attempt : Nat) (w : Bool)
    (h : attempt < num_retries) :
    cccLoop cfg messages model temperature max_tokens
        (Outcome.rateLimit :: rest) attempt w
      = (CCCEvent.request (attemptRequest cfg messages model temperature max_tokens)
          :: (if w then [] else [CCCEvent.advisory])
          ++ CCCEvent.sleep (2 ^ (attempt + 2))
          :: (cccLoop cfg messages model temperature max_tokens rest
              (attempt + 1) true).1,
         (cccLoop cfg messages model temperature max_tokens rest
            (attempt + 1) true).2) := by
  rw [cccLoop, if_neg (Nat.not_le.mpr h)]

/-- Unfolding of the chat loop on a bad-gateway APIError before the final
attempt: a backoff sleep of 2 ^ (attempt + 2), then retry. -/
theorem cccLoop_gateway (cfg : Config) (messages : List Msg)
    (model : Option String) (temperature : Int) (max_tokens : Option Nat)
    (rest : List (Outcome ChatResp)) (attempt : Nat) (w : Bool)
    (h : attempt < num_retries) (hl : attempt ≠ num_retries - 1) :
    cccLoop cfg messages model temperature max_tokens
        (Outcome.apiError 502 :: rest) attempt w
      = (CCCEvent.request (attemptRequest cfg messages model temperature max_tokens)
          :: CCCEvent.sleep (2 ^ (attempt + 2))
          :: (cccLoop cfg messages model temperature max_tokens rest
              (attempt + 1) w).1,
         (cccLoop cfg messages model temperature max_tokens rest
            (attempt + 1) w).2) := by
  rw [cccLoop, if_neg (Nat.not_le.mpr h)]
  simp [hl]

/-- Unfolding of the chat loop on a bad-gateway APIError at the final
attempt: the error is re-raised. -/
theorem cccLoop_gateway_last (cfg : Config) (messages : List Msg)
    (model : Option String) (temperature : Int) (max_tokens : Option Nat)
    (rest : List (Outcome ChatResp)) (w : Bool) :
    cccLoop cfg messages model temperature max_tokens
        (Outcome.apiError 502 :: rest) (num_retries - 1) w
      = ([CCCEvent.request (attemptRequest cfg messages model temperature
            max_tokens)], LoopExit.raised 502) := by
  rw [cccLoop, if_neg (by decide : ¬ num_retries ≤ num_retries - 1)]
  simp

/-- Unfolding of the chat loop on any other APIError: re-raised at once,
with no sleep and no further attempt. -/
theorem cccLoop_fatal (cfg : Config) (messages : List Msg)
    (model : Option String) (temperature : Int) (max_tokens : Option Nat)
    (rest : List (Outcome ChatResp)) (attempt : Nat) (w : Bool)
    (s : Nat) (hs : s ≠ 502) (h : attempt < num_retries) :
    cccLoop cfg messages model temperature max_tokens
        (Outcome.apiError s :: rest) attempt w
      = ([CCCEvent.request (attemptRequest cfg messages model temperature
            max_tokens)], LoopExit.raised s) := by
  rw [cccLoop, if_neg (Nat.not_le.mpr h)]
  simp [hs]

/-- Unfolding of the chat loop on a successful call: break with the
response. -/
theorem cccLoop_success (cfg : Config) (messages : List Msg)
    (model : Option String) (temperature : Int) (max_tokens : Option Nat)
    (rest : List (Outcome ChatResp)) (attempt : Nat) (w : Bool)
    (r : ChatResp) (h : attempt < num_retries) :
    cccLoop cfg messages model temperature max_tokens
        (Outcome.success r :: rest) attempt w
      = ([CCCEvent.request (attemptRequest cfg messages model temperature
            max_tokens)], LoopExit.gotResponse r) := by
  rw [cccLoop, if_neg (Nat.not_le.mpr h)]

/-- A run whose first outcomes are all retryable and fit strictly below
the final attempt index behaves like the run of the remaining outcomes
started at the advanced attempt counter, with some events prefixed. -/
theorem cccLoop_retryable_prefix (cfg : Config) (messages : List Msg)
    (model : Option String) (temperature : Int) (max_tokens : Option Nat) :
    ∀ (outs1 : List (Outcome ChatResp)) (attempt : Nat) (w : Bool),
      (∀ o ∈ outs1, o = Outcome.rateLimit ∨ o = Outcome.apiError 502) →
      attempt + outs1.length ≤ num_retries - 1 →
      ∃ evs w2, ∀ outs2,
        cccLoop cfg messages model temperature max_tokens (outs1 ++ outs2)
            attempt w
          = (evs ++ (cccLoop cfg messages model temperature max_tokens outs2
                (attempt + outs1.length) w2).1,
             (cccLoop cfg messages model temperature max_tokens outs2
                (attempt + outs1.length) w2).2) := by
  intro outs1
  induction outs1 with
  | nil =>
    intro attempt w _ _
    exact ⟨[], w, fun outs2 => by simp⟩
  | cons o rest ih =>
    intro attempt w hret hlen
    have hlen2 : attempt + 1 + rest.length ≤ num_retries - 1 := by
      simp only [List.length_cons] at hlen
      omega
    have hlt : attempt < num_retries := by
      have : num_retries - 1 < num_retries := by decide
      omega
    have hne : attempt ≠ num_retries - 1 := by
      simp only [List.length_cons] at hlen
      omega
    rcases hret o (List.mem_cons_self _ _) with ho | ho <;> subst ho
    · obtain ⟨evs, w2, hcont⟩ :=
        ih (attempt + 1) true (fun o ho => hret o (List.mem_cons_of_mem _ ho))
          hlen2
      refine ⟨CCCEvent.request (attemptRequest cfg messages model temperature
          max_tokens) :: (if w then [] else [CCCEvent.advisory])
          ++ CCCEvent.sleep (2 ^ (attempt + 2)) :: evs, w2, fun outs2 => ?_⟩
      rw [List.cons_append,
        cccLoop_rateLimit cfg messages model temperature max_tokens
          (rest ++ outs2) attempt w hlt, hcont outs2]
      have heq : attempt + 1 + rest.length = attempt + (rest.length + 1) := by
        omega
      rw [heq]
      simp
    · obtain ⟨evs, w2, hcont⟩ :=
        ih (attempt + 1) w (fun o ho => hret o (List.mem_cons_of_mem _ ho))
          hlen2
      refine ⟨CCCEvent.request (attemptRequest cfg messages model temperature
          max_tokens) :: CCCEvent.sleep (2 ^ (attempt + 2)) :: evs, w2,
          fun outs2 => ?_⟩
      rw [List.cons_append,
        cccLoop_gateway cfg messages model temperature max_tokens
          (rest ++ outs2) attempt w hlt hne, hcont outs2]
      have heq : attempt + 1 + rest.length = attempt + (rest.length + 1) := by
        omega
      rw [heq]
      simp

/-! Helper lemmas about the embedding retry loop. -/

/-- Once the attempt counter reaches the ceiling, the embedding loop
stops, and the implicit None is returned. -/
theorem embLoop_stop (cfg : Config) (text : String)
    (outs : List (Outcome EmbData)) (attempt : Nat)
    (h : num_retries ≤ attempt) :
    embLoop cfg text outs attempt = ([], EmbExit.fellThrough) := by
  rw [embLoop, if_pos h]

/-- Unfolding of the embedding loop on a RateLimitError: the error is
passed over with no advisory, a backoff sleep of 2 ^ (attempt + 2), then
retry. -/
theorem embLoop_rateLimit (cfg : Config) (text : String)
    (rest : List (Outcome EmbData)) (attempt : Nat)
    (h : attempt < num_retries) :
    embLoop cfg text (Outcome.rateLimit :: rest) attempt
      = (EmbEvent.request (embRequest cfg text)
          :: EmbEvent.sleep (2 ^ (attempt + 2))
          :: (embLoop cfg text rest (attempt + 1)).1,
         (embLoop cfg text rest (attempt + 1)).2) := by
  rw [embLoop, if_neg (Nat.not_le.mpr h)]

/-- Unfolding of the embedding loop on a bad-gateway APIError before the
final attempt. -/
theorem embLoop_gateway (cfg : Config) (text : String)
    (rest : List (Outcome EmbData)) (attempt : Nat)
    (h : attempt < num_retries) (hl : attempt ≠ num_retries - 1) :
    embLoop cfg text (Outcome.apiError 502 :: rest) attempt
      = (EmbEvent.request (embRequest cfg text)
          :: EmbEvent.sleep (2 ^ (attempt + 2))
          :: (embLoop cfg text rest (attempt + 1)).1,
         (embLoop cfg text rest (attempt + 1)).2) := by
  rw [embLoop, if_neg (Nat.not_le.mpr h)]
  simp [hl]

/-- Unfolding of the embedding loop on a bad-gateway APIError at the
final attempt: the error is re-raised. -/
theorem embLoop_gateway_last (cfg : Config) (text : String)
    (rest : List (Outcome EmbData)) :
    embLoop cfg text (Outcome.apiError 502 :: rest) (num_retries - 1)
      = ([EmbEvent.request (embRequest cfg text)], EmbExit.raised 502) := by
  rw [embLoop, if_neg (by decide : ¬ num_retries ≤ num_retries - 1)]
  simp

/-- A run of the embedding loop whose first outcomes are all retryable
and fit strictly below the final attempt index behaves like the run of
the remaining outcomes started at the advanced attempt counter. -/
theorem embLoop_retryable_prefix (cfg : Config) (text : String) :
    ∀ (outs1 : List (Outcome EmbData)) (attempt : Nat),
      (∀ o ∈ outs1, o = Outcome.rateLimit ∨ o = Outcome.apiError 502) →
      attempt + outs1.length ≤ num_retries - 1 →
      ∃ evs, ∀ outs2,
        embLoop cfg text (outs1 ++ outs2) attempt
          = (evs ++ (embLoop cfg text outs2 (attempt + outs1.length)).1,
             (embLoop cfg text outs2 (attempt + outs1.length)).2) := by
  intro outs1
  induction outs1 with
  | nil =>
    intro attempt _ _
    exact ⟨[], fun outs2 => by simp⟩
  | cons o rest ih =>
    intro attempt hret hlen
    have hlen2 : attempt + 1 + rest.length ≤ num_retries - 1 := by
      simp only [List.length_cons] at hlen
      omega
    have hlt : attempt < num_retries := by
      have : num_retries - 1 < num_retries := by decide
      omega
    have hne : attempt ≠ num_retries - 1 := by
      simp only [List.length_cons] at hlen
      omega
    obtain ⟨evs, hcont⟩ :=
      ih (attempt + 1) (fun o ho => hret o (List.mem_cons_of_mem _ ho)) hlen2
    rcases hret o (List.mem_cons_self _ _) with ho | ho <;> subst ho
    · refine ⟨EmbEvent.request (embRequest cfg text)
        :: EmbEvent.sleep (2 ^ (attempt + 2)) :: evs, fun outs2 => ?_⟩
      rw [List.cons_append,
        embLoop_rateLimit cfg text (rest ++ outs2) attempt hlt, hcont outs2]
      have heq : attempt + 1 + rest.length = attempt + (rest.length + 1) := by
        omega
      rw [heq]
      simp
    · refine ⟨EmbEvent.request (embRequest cfg text)
        :: EmbEvent.sleep (2 ^ (attempt + 2)) :: evs, fun outs2 => ?_⟩
      rw [List.cons_append,
        embLoop_gateway cfg text (rest ++ outs2) attempt hlt hne, hcont outs2]
      have heq : attempt + 1 + rest.length = attempt + (rest.length + 1) := by
        omega
      rw [heq]
      simp

/-! Helper lemmas about the rate-limit advisory. -/

/-- Advisory count of a cons cell. -/
theorem advisoryCount_cons (e : CCCEvent) (l : List CCCEvent) :
    advisoryCount (e :: l)
      = advisoryCount l + (if e = CCCEvent.advisory then 1 else 0) := by
  simp [advisoryCount, List.count_cons]

/-- Once warned_user is set, the chat loop never emits another advisory. -/
theorem advisoryCount_warned (cfg : Config) (messages : List Msg)
    (model : Option String) (temperature : Int) (max_tokens : Option Nat) :
    ∀ (outs : List (Outcome ChatResp)) (attempt : Nat),
      advisoryCount
        (cccLoop cfg messages model temperature max_tokens outs attempt true).1
        = 0 := by
  intro outs
  induction outs with
  | nil =>
    intro attempt
    rw [cccLoop]
    split <;> simp [advisoryCount]
  | cons o rest ih =>
    intro attempt
    rw [cccLoop]
    split
    · simp [advisoryCount]
    · rcases o with r | _ | s
      · simp [advisoryCount]
      · simp [advisoryCount_cons, ih (attempt + 1)]
      · by_cases hs : s = 502
        · subst hs
          by_cases hl : attempt = num_retries - 1
          · simp [advisoryCount, hl]
          · simp [hl, advisoryCount_cons, ih (attempt + 1)]
        · simp [advisoryCount, hs]

/-- Started unwarned, the chat loop emits the advisory exactly once when
the run reaches a RateLimitError, and not at all otherwise. -/
theorem advisoryCount_unwarned (cfg : Config) (messages : List Msg)
    (model : Option String) (temperature : Int) (max_tokens : Option Nat) :
    ∀ (outs : List (Outcome ChatResp)) (attempt : Nat),
      advisoryCount
        (cccLoop cfg messages model temperature max_tokens outs attempt false).1
        = if hitsRateLimit outs attempt then 1 else 0 := by
  intro outs
  induction outs with
  | nil =>
    intro attempt
    rw [cccLoop]
    split <;> simp [advisoryCount, hitsRateLimit]
  | cons o rest ih =>
    intro attempt
    rw [cccLoop]
    split
    · rename_i h
      simp [advisoryCount, hitsRateLimit, h]
    · rename_i h
      rcases o with r | _ | s
      · simp [advisoryCount, hitsRateLimit, h]
      · simp [advisoryCount_cons, hitsRateLimit, h,
          advisoryCount_warned cfg messages model temperature max_tokens rest
            (attempt + 1)]
      · by_cases hs : s = 502
        · subst hs
          by_cases hl : attempt = num_retries - 1
          · simp [advisoryCount, hitsRateLimit, h, hl]
          · simp [advisoryCount_cons, hitsRateLimit, h, hl, ih (attempt + 1)]
        · simp [advisoryCount, hitsRateLimit, h, hs]

/-- The trace of create_chat_completion has the same advisory count as the
trace of its attempt loop: the post-loop failure log adds none. -/
theorem advisoryCount_create (cfg : Config) (messages : List Msg)
    (model : Option String) (temperature : Int) (max_tokens : Option Nat)
    (outs : List (Outcome ChatResp)) :
    advisoryCount
        (create_chat_completion cfg messages model temperature max_tokens outs).1
      = advisoryCount
        (cccLoop cfg messages model temperature max_tokens outs 0 false).1 := by
  rw [create_chat_completion.eq_def]
  rcases h : cccLoop cfg messages model temperature max_tokens outs 0 false
    with ⟨evs, ex⟩
  rcases ex with r | s | _ | _
  · rcases r with t | choices
    · by_cases hc : cfg.use_claude = true <;> simp [h, hc, advisoryCount]
    · by_cases hc : cfg.use_claude = true
      · simp [h, hc, advisoryCount]
      · rcases hh : choices.head? with _ | c <;>
          simp [h, hc, hh, advisoryCount]
  · simp [h, advisoryCount]
  · by_cases hd : cfg.debug_mode = true <;>
      simp [h, hd, advisoryCount, List.count_append]
  · simp [h, advisoryCount]

/-! The claim theorems about the retry controller. -/

/-- C2: in both create_chat_completion and create_embedding_with_ada, the
backoff delay slept after a retryable failure (RateLimitError, or a
bad-gateway APIError before the final attempt) of attempt i equals
2 ^ (i + 2) seconds, and it is the first sleep of the remaining trace. -/
theorem claim2_backoff_formula (cfg : Config) (messages : List Msg)
    (model : Option String) (temperature : Int) (max_tokens : Option Nat)
    (text : String) (i : Nat) (hi : i < num_retries)
    (o : Outcome ChatResp) (oe : Outcome EmbData)
    (rest : List (Outcome ChatResp)) (reste : List (Outcome EmbData))
    (w : Bool)
    (ho : o = Outcome.rateLimit ∨ (o = Outcome.apiError 502 ∧ i ≠ num_retries - 1))
    (hoe : oe = Outcome.rateLimit
      ∨ (oe = Outcome.apiError 502 ∧ i ≠ num_retries - 1)) :
    (∃ pre post ex,
      cccLoop cfg messages model temperature max_tokens (o :: rest) i w
        = (pre ++ CCCEvent.sleep (2 ^ (i + 2)) :: post, ex)
      ∧ ∀ n, CCCEvent.sleep n ∉ pre)
    ∧ (∃ pre post ex,
      embLoop cfg text (oe :: reste) i
        = (pre ++ EmbEvent.sleep (2 ^ (i + 2)) :: post, ex)
      ∧ ∀ n, EmbEvent.sleep n ∉ pre) := by
  constructor
  · rcases ho with ho | ⟨ho, hne⟩ <;> subst ho
    · refine ⟨CCCEvent.request (attemptRequest cfg messages model temperature
          max_tokens) :: (if w then [] else [CCCEvent.advisory]),
        (cccLoop cfg messages model temperature max_tokens rest (i + 1)
          true).1,
        (cccLoop cfg messages model temperature max_tokens rest (i + 1)
          true).2, ?_, ?_⟩
      · rw [cccLoop_rateLimit cfg messages model temperature max_tokens rest
          i w hi]
        try simp
      · intro n
        rcases w <;> simp
    · refine ⟨[CCCEvent.request (attemptRequest cfg messages model temperature
          max_tokens)],
        (cccLoop cfg messages model temperature max_tokens rest (i + 1)
          w).1,
        (cccLoop cfg messages model temperature max_tokens rest (i + 1)
          w).2, ?_, ?_⟩
      · rw [cccLoop_gateway cfg messages model temperature max_tokens rest
          i w hi hne]
        try simp
      · intro n
        simp
  · rcases hoe with hoe | ⟨hoe, hne⟩ <;> subst hoe
    · refine ⟨[EmbEvent.request (embRequest cfg text)],
        (embLoop cfg text reste (i + 1)).1,
        (embLoop cfg text reste (i + 1)).2, ?_, ?_⟩
      · rw [embLoop_rateLimit cfg text reste i hi]
        try simp
      · intro n
        simp
    · refine ⟨[EmbEvent.request (embRequest cfg text)],
        (embLoop cfg text reste (i + 1)).1,
        (embLoop cfg text reste (i + 1)).2, ?_, ?_⟩
      · rw [embLoop_gateway cfg text reste i hi hne]
        try simp
      · intro n
        simp

/-- Witness for C2 at attempt 0 with a rate-limit failure. -/
theorem claim2_witness :
    (∃ pre post ex,
      cccLoop cfgDefault [] none 0 none
          [(Outcome.rateLimit : Outcome ChatResp)] 0 false
        = (pre ++ CCCEvent.sleep (2 ^ (0 + 2)) :: post, ex)
      ∧ ∀ n, CCCEvent.sleep n ∉ pre)
    ∧ (∃ pre post ex,
      embLoop cfgDefault "t" [(Outcome.rateLimit : Outcome EmbData)] 0
        = (pre ++ EmbEvent.sleep (2 ^ (0 + 2)) :: post, ex)
      ∧ ∀ n, EmbEvent.sleep n ∉ pre) :=
  claim2_backoff_formula cfgDefault [] none 0 none "t" 0 (by decide)
    Outcome.rateLimit Outcome.rateLimit [] [] false
    (Or.inl rfl) (Or.inl rfl)

/-- C4: the rate-limit advisory is emitted exactly once per call chain:
never once warned_user is set, exactly once in an unwarned run that
reaches a RateLimitError and never otherwise, at most once in any full
create_chat_completion call; and on an unwarned rate-limit failure the
advisory is emitted at that failure, followed only by the standard backoff
sleep before the warned retry. -/
theorem claim4_advisory_once (cfg : Config) (messages : List Msg)
    (model : Option String) (temperature : Int) (max_tokens : Option Nat)
    (i : Nat) (hi : i < num_retries) (rest : List (Outcome ChatResp)) :
    (∀ (outs : List (Outcome ChatResp)) (j : Nat),
      advisoryCount
        (cccLoop cfg messages model temperature max_tokens outs j true).1 = 0)
    ∧ (∀ (outs : List (Outcome ChatResp)) (j : Nat),
      advisoryCount
        (cccLoop cfg messages model temperature max_tokens outs j false).1
        = if hitsRateLimit outs j then 1 else 0)
    ∧ (∀ outs : List (Outcome ChatResp),
      advisoryCount
        (create_chat_completion cfg messages model temperature max_tokens
          outs).1 ≤ 1)
    ∧ cccLoop cfg messages model temperature max_tokens
        (Outcome.rateLimit :: rest) i false
      = (CCCEvent.request (attemptRequest cfg messages model temperature
            max_tokens)
          :: CCCEvent.advisory
          :: CCCEvent.sleep (2 ^ (i + 2))
          :: (cccLoop cfg messages model temperature max_tokens rest (i + 1)
              true).1,
         (cccLoop cfg messages model temperature max_tokens rest (i + 1)
            true).2) := by
  refine ⟨advisoryCount_warned cfg messages model temperature max_tokens,
    advisoryCount_unwarned cfg messages model temperature max_tokens,
    ?_, ?_⟩
  · intro outs
    rw [advisoryCount_create cfg messages model temperature max_tokens outs,
      advisoryCount_unwarned cfg messages model temperature max_tokens outs 0]
    split <;> simp
  · rw [cccLoop_rateLimit cfg messages model temperature max_tokens rest i
      false hi]
    simp

/-- Witness for C4 at a concrete two-outcome run. -/
theorem claim4_witness :
    advisoryCount
      (create_chat_completion cfgDefault [] none 0 none
        [Outcome.rateLimit, Outcome.rateLimit]).1 ≤ 1 :=
  (claim4_advisory_once cfgDefault [] none 0 none 0 (by decide) []).2.2.1
    [Outcome.rateLimit, Outcome.rateLimit]

/-- C7: a provider APIError whose status is not 502 aborts the chat retry
loop immediately: at any attempt the only event of the remaining trace is
the request itself (no backoff sleep), the error is propagated unchanged,
and no further attempts touch the remaining outcomes; a full call failing
that way on its first attempt performs zero sleeps in total. -/
theorem claim7_fatal_immediate (cfg : Config) (messages : List Msg)
    (model : Option String) (temperature : Int) (max_tokens : Option Nat)
    (s : Nat) (hs : s ≠ 502) (i : Nat) (hi : i < num_retries)
    (rest : List (Outcome ChatResp)) (w : Bool) :
    cccLoop cfg messages model temperature max_tokens
        (Outcome.apiError s :: rest) i w
      = ([CCCEvent.request (attemptRequest cfg messages model temperature
            max_tokens)], LoopExit.raised s)
    ∧ create_chat_completion cfg messages model temperature max_tokens
        (Outcome.apiError s :: rest)
      = ([CCCEvent.request (attemptRequest cfg messages model temperature
            max_tokens)], CCCResult.raised s)
    ∧ sleeps (create_chat_completion cfg messages model temperature
        max_tokens (Outcome.apiError s :: rest)).1 = [] := by
  have h0 : (0 : Nat) < num_retries := by decide
  have hloop := cccLoop_fatal cfg messages model temperature max_tokens rest
    0 false s hs h0
  have hfull : create_chat_completion cfg messages model temperature
      max_tokens (Outcome.apiError s :: rest)
      = ([CCCEvent.request (attemptRequest cfg messages model temperature
            max_tokens)], CCCResult.raised s) := by
    rw [create_chat_completion.eq_def, hloop]
  refine ⟨cccLoop_fatal cfg messages model temperature max_tokens rest i w
    s hs hi, hfull, ?_⟩
  rw [hfull]
  simp [sleeps]

/-- Witness for C7 at a concrete status-500 failure. -/
theorem claim7_witness :
    create_chat_completion cfgDefault [] none 0 none
        (Outcome.apiError 500 :: [Outcome.rateLimit])
      = ([CCCEvent.request (attemptRequest cfgDefault [] none 0 none)],
         CCCResult.raised 500) :=
  (claim7_fatal_immediate cfgDefault [] none 0 none 500 (by decide) 0
    (by decide) [Outcome.rateLimit] false).2.1

/-- C5 counterexample: when all ten attempts fail retryably but the last
failure is a bad gateway, the call neither raises the exhaustion
RuntimeError nor terminates the process: it re-raises the APIError, in
debug mode and in default mode alike. -/
theorem claim5_counterexample :
    (create_chat_completion cfgDefault [] none 0 none
        (List.replicate num_retries (Outcome.apiError 502))).2
      = CCCResult.raised 502
    ∧ (create_chat_completion cfgDebug [] none 0 none
        (List.replicate num_retries (Outcome.apiError 502))).2
      = CCCResult.raised 502
    ∧ CCCResult.raised 502 ≠ CCCResult.exited 1
    ∧ CCCResult.raised 502 ≠ CCCResult.runtimeError := by
  refine ⟨rfl, rfl, by decide, by decide⟩

/-- C5 (amended): if all 10 attempts fail with retryable errors and the
final attempt's failure is a rate limit — so the loop completes without a
response — then the failure notice is logged and the call raises the
exhaustion RuntimeError when the debug flag is set, and terminates the
process with status 1 otherwise. (When the final retryable failure is a
bad gateway, the error is re-raised instead.) -/
theorem claim5_exhaustion (cfg : Config) (messages : List Msg)
    (model : Option String) (temperature : Int) (max_tokens : Option Nat)
    (outs : List (Outcome ChatResp))
    (hlen : outs.length = num_retries)
    (hret : ∀ o ∈ outs, o = Outcome.rateLimit ∨ o = Outcome.apiError 502)
    (hlast : outs.getLast? = some Outcome.rateLimit) :
    (create_chat_completion cfg messages model temperature max_tokens outs).2
      = (if cfg.debug_mode then CCCResult.runtimeError else CCCResult.exited 1)
    ∧ CCCEvent.failLog
      ∈ (create_chat_completion cfg messages model temperature max_tokens
          outs).1 := by
  rcases List.eq_nil_or_concat outs with hnil | ⟨front, b, hsplit⟩
  · subst hnil
    simp [num_retries] at hlen
  · subst hsplit
    rw [List.concat_eq_append] at hlen hret hlast ⊢
    have hb : b = Outcome.rateLimit := by
      rw [List.getLast?_concat] at hlast
      exact Option.some.inj hlast
    subst hb
    have hflen : front.length = num_retries - 1 := by
      simp only [List.length_append, List.length_cons, List.length_nil] at hlen
      omega
    obtain ⟨evs, w2, hcont⟩ :=
      cccLoop_retryable_prefix cfg messages model temperature max_tokens
        front 0 false
        (fun o ho => hret o (List.mem_append_left _ ho))
        (by omega)
    have h9 : 0 + front.length = num_retries - 1 := by omega
    have hexit : (cccLoop cfg messages model temperature max_tokens
        (front ++ [Outcome.rateLimit]) 0 false).2 = LoopExit.fellThrough := by
      rw [hcont [Outcome.rateLimit]]
      show (cccLoop cfg messages model temperature max_tokens
        [Outcome.rateLimit] (0 + front.length) w2).2 = LoopExit.fellThrough
      rw [h9,
        cccLoop_rateLimit cfg messages model temperature max_tokens []
          (num_retries - 1) w2 (by decide),
        cccLoop_stop cfg messages model temperature max_tokens []
          (num_retries - 1 + 1) true (by decide)]
    rcases hfull : cccLoop cfg messages model temperature max_tokens
      (front ++ [Outcome.rateLimit]) 0 false with ⟨evs2, ex⟩
    rw [hfull] at hexit
    simp only [] at hexit
    subst hexit
    rw [create_chat_completion.eq_def, hfull]
    by_cases hd : cfg.debug_mode = true <;> simp [hd]

/-- Witness for the amended C5 on ten consecutive rate-limit failures. -/
theorem claim5_witness :
    (create_chat_completion cfgDefault [] none 0 none
        (List.replicate num_retries Outcome.rateLimit)).2
      = (if cfgDefault.debug_mode then CCCResult.runtimeError
          else CCCResult.exited 1)
    ∧ CCCEvent.failLog
      ∈ (create_chat_completion cfgDefault [] none 0 none
          (List.replicate num_retries Outcome.rateLimit)).1 :=
  claim5_exhaustion cfgDefault [] none 0 none
    (List.replicate num_retries Outcome.rateLimit)
    (by decide) (by decide) (by decide)

/-- C6: a bad-gateway APIError on the final allowed attempt is re-raised
to the caller, both in the chat loop and in the embedding loop, and hence
by full create_chat_completion and create_embedding_with_ada calls that
reach their final attempt through retryable failures. -/
theorem claim6_final_gateway (cfg : Config) (messages : List Msg)
    (model : Option String) (temperature : Int) (max_tokens : Option Nat)
    (text : String) (rest : List (Outcome ChatResp))
    (reste : List (Outcome EmbData)) (w : Bool)
    (front : List (Outcome ChatResp)) (fronte : List (Outcome EmbData))
    (hf : ∀ o ∈ front, o = Outcome.rateLimit ∨ o = Outcome.apiError 502)
    (hfl : front.length = num_retries - 1)
    (hfe : ∀ o ∈ fronte, o = Outcome.rateLimit ∨ o = Outcome.apiError 502)
    (hfel : fronte.length = num_retries - 1) :
    (cccLoop cfg messages model temperature max_tokens
        (Outcome.apiError 502 :: rest) (num_retries - 1) w).2
      = LoopExit.raised 502
    ∧ (embLoop cfg text (Outcome.apiError 502 :: reste) (num_retries - 1)).2
      = EmbExit.raised 502
    ∧ (create_chat_completion cfg messages model temperature max_tokens
        (front ++ Outcome.apiError 502 :: rest)).2 = CCCResult.raised 502
    ∧ (create_embedding_with_ada cfg text
        (fronte ++ Outcome.apiError 502 :: reste)).2
      = EmbResult.raised 502 := by
  refine ⟨?_, ?_, ?_, ?_⟩
  · rw [cccLoop_gateway_last cfg messages model temperature max_tokens rest w]
  · rw [embLoop_gateway_last cfg text reste]
  · obtain ⟨evs, w2, hcont⟩ :=
      cccLoop_retryable_prefix cfg messages model temperature max_tokens
        front 0 false hf (by omega)
    have h9 : 0 + front.length = num_retries - 1 := by omega
    have hexit : (cccLoop cfg messages model temperature max_tokens
        (front ++ Outcome.apiError 502 :: rest) 0 false).2
        = LoopExit.raised 502 := by
      rw [hcont (Outcome.apiError 502 :: rest)]
      show (cccLoop cfg messages model temperature max_tokens
        (Outcome.apiError 502 :: rest) (0 + front.length) w2).2
        = LoopExit.raised 502
      rw [h9, cccLoop_gateway_last cfg messages model temperature max_tokens
        rest w2]
    rcases hfull : cccLoop cfg messages model temperature max_tokens
      (front ++ Outcome.apiError 502 :: rest) 0 false with ⟨evs2, ex⟩
    rw [hfull] at hexit
    simp only [] at hexit
    subst hexit
    rw [create_chat_completion.eq_def, hfull]
  · obtain ⟨evs, hcont⟩ :=
      embLoop_retryable_prefix cfg text fronte 0 hfe (by omega)
    have h9 : 0 + fronte.length = num_retries - 1 := by omega
    have hexit : (embLoop cfg text
        (fronte ++ Outcome.apiError 502 :: reste) 0).2
        = EmbExit.raised 502 := by
      rw [hcont (Outcome.apiError 502 :: reste)]
      show (embLoop cfg text (Outcome.apiError 502 :: reste)
        (0 + fronte.length)).2 = EmbExit.raised 502
      rw [h9, embLoop_gateway_last cfg text reste]
    rcases hfull : embLoop cfg text (fronte ++ Outcome.apiError 502 :: reste)
      0 with ⟨evs2, ex⟩
    rw [hfull] at hexit
    simp only [] at hexit
    subst hexit
    rw [create_embedding_with_ada.eq_def, hfull]

/-- Witness for C6 after nine rate-limit failures. -/
theorem claim6_witness :
    (cccLoop cfgDefault [] none 0 none
        (Outcome.apiError 502 :: []) (num_retries - 1) false).2
      = LoopExit.raised 502
    ∧ (embLoop cfgDefault "t" (Outcome.apiError 502 :: []) (num_retries - 1)).2
      = EmbExit.raised 502
    ∧ (create_chat_completion cfgDefault [] none 0 none
        (List.replicate (num_retries - 1) Outcome.rateLimit
          ++ Outcome.apiError 502 :: [])).2 = CCCResult.raised 502
    ∧ (create_embedding_with_ada cfgDefault "t"
        (List.replicate (num_retries - 1) Outcome.rateLimit
          ++ Outcome.apiError 502 :: [])).2 = EmbResult.raised 502 :=
  claim6_final_gateway cfgDefault [] none 0 none "t" [] [] false
    (List.replicate (num_retries - 1) Outcome.rateLimit)
    (List.replicate (num_retries - 1) Outcome.rateLimit)
    (by decide) (by decide) (by decide) (by decide)

/-- The embedding attempt loop and the chat attempt loop, fed the same
sequence of outcomes, perform the same sequence of backoff sleeps and
leave their loops in corresponding ways, whatever warned_user flag the
chat loop carries. -/
theorem embLoop_matches_cccLoop (cfg : Config) (messages : List Msg)
    (model : Option String) (temperature : Int) (max_tokens : Option Nat)
    (text : String) (f : EmbData → ChatResp) :
    ∀ (outs : List (Outcome EmbData)) (j : Nat) (w : Bool),
      embSleeps (embLoop cfg text outs j).1
        = sleeps (cccLoop cfg messages model temperature max_tokens
            (outs.map (Outcome.map f)) j w).1
      ∧ exitsMatch (embLoop cfg text outs j).2
          (cccLoop cfg messages model temperature max_tokens
            (outs.map (Outcome.map f)) j w).2 := by
  intro outs
  induction outs with
  | nil =>
    intro j w
    rw [List.map_nil, embLoop, cccLoop]
    by_cases h : num_retries ≤ j <;>
      simp [h, embSleeps, sleeps, exitsMatch]
  | cons o rest ih =>
    intro j w
    rw [List.map_cons, embLoop, cccLoop]
    by_cases h : num_retries ≤ j
    · simp [h, embSleeps, sleeps, exitsMatch]
    · rcases o with data | _ | s
      · rcases hh : data.head? with _ | v <;>
          simp [Outcome.map, h, hh, embSleeps, sleeps, exitsMatch]
      · obtain ⟨ihs, ihe⟩ := ih (j + 1) true
        constructor
        · rcases w <;>
            simpa [Outcome.map, h, embSleeps, sleeps, List.filterMap_cons,
              List.filterMap_append] using ihs
        · rcases w <;> simpa [Outcome.map, h] using ihe
      · by_cases hs : s = 502
        · subst hs
          by_cases hl : j = num_retries - 1
          · subst hl
            simp [Outcome.map, h, embSleeps, sleeps, exitsMatch]
          · obtain ⟨ihs, ihe⟩ := ih (j + 1) w
            constructor
            · simpa [Outcome.map, h, hl, embSleeps, sleeps,
                List.filterMap_cons] using ihs
            · simpa [Outcome.map, h, hl] using ihe
        · simp [Outcome.map, h, hs, embSleeps, sleeps, exitsMatch]

/-- C3 counterexample: on ten consecutive rate-limit failures the chat
call warns the user once and terminates the process with status 1, while
the embedding call falls off the end of its loop and returns the implicit
None — in debug mode too — so the embedding client does not share the
chat client's advisory or its exhaustion behaviour. -/
theorem claim3_counterexample :
    (create_embedding_with_ada cfgDefault "txt"
        (List.replicate num_retries Outcome.rateLimit)).2
      = EmbResult.returnedNone
    ∧ (create_embedding_with_ada cfgDebug "txt"
        (List.replicate num_retries Outcome.rateLimit)).2
      = EmbResult.returnedNone
    ∧ (create_chat_completion cfgDefault [] none 0 none
        (List.replicate num_retries Outcome.rateLimit)).2
      = CCCResult.exited 1
    ∧ advisoryCount (create_chat_completion cfgDefault [] none 0 none
        (List.replicate num_retries Outcome.rateLimit)).1 = 1 := by
  refine ⟨rfl, rfl, rfl, rfl⟩

/-- C3 (amended): create_embedding_with_ada shares the chat client's
attempt ceiling, retryable classification and 2 ^ (i + 2) backoff formula
— the two loops run identical sleep sequences on identical outcome
sequences and leave their loops in corresponding ways (same re-raised
status, simultaneous exhaustion) — and on success it returns only the
vector of the first result entry with no continuation logic; but it emits
no rate-limit advisory and, on exhaustion, returns the implicit None
rather than raising or terminating the process. -/
theorem claim3_embedding_policy (cfg : Config) (messages : List Msg)
    (model : Option String) (temperature : Int) (max_tokens : Option Nat)
    (text : String) (f : EmbData → ChatResp) (w : Bool)
    (v : List Int) (vs : EmbData) (douts : List (Outcome EmbData))
    (i : Nat) (hi : i < num_retries) :
    (∀ (outs : List (Outcome EmbData)) (j : Nat),
      embSleeps (embLoop cfg text outs j).1
        = sleeps (cccLoop cfg messages model temperature max_tokens
            (outs.map (Outcome.map f)) j w).1)
    ∧ (∀ (outs : List (Outcome EmbData)) (j : Nat),
      exitsMatch (embLoop cfg text outs j).2
        (cccLoop cfg messages model temperature max_tokens
          (outs.map (Outcome.map f)) j w).2)
    ∧ embLoop cfg text (Outcome.success (v :: vs) :: douts) i
      = ([EmbEvent.request (embRequest cfg text)], EmbExit.returned v)
    ∧ (∀ outs : List (Outcome EmbData),
        (embLoop cfg text outs 0).2 = EmbExit.fellThrough →
        (create_embedding_with_ada cfg text outs).2
          = EmbResult.returnedNone) := by
  refine ⟨fun outs j => (embLoop_matches_cccLoop cfg messages model
      temperature max_tokens text f outs j w).1,
    fun outs j => (embLoop_matches_cccLoop cfg messages model temperature
      max_tokens text f outs j w).2, ?_, ?_⟩
  · rw [embLoop, if_neg (Nat.not_le.mpr hi)]
    rfl
  · intro outs hfell
    rcases hl : embLoop cfg text outs 0 with ⟨evs, ex⟩
    rw [hl] at hfell
    simp only [] at hfell
    subst hfell
    rw [create_embedding_with_ada.eq_def, hl]

/-- Witness for the amended C3 at concrete inputs. -/
theorem claim3_witness :
    embSleeps (embLoop cfgDefault "t"
        [(Outcome.rateLimit : Outcome EmbData)] 0).1
      = sleeps (cccLoop cfgDefault [] none 0 none
          ([(Outcome.rateLimit : Outcome EmbData)].map
            (Outcome.map fun _ => ChatResp.api [])) 0 false).1
    ∧ embLoop cfgDefault "t" [Outcome.success ([1, 2] :: [])] 0
      = ([EmbEvent.request (embRequest cfgDefault "t")],
         EmbExit.returned [1, 2]) := by
  have h := claim3_embedding_policy cfgDefault [] none 0 none "t"
    (fun _ => ChatResp.api []) false [1, 2] [] [] 0 (by decide)
  exact ⟨h.1 [Outcome.rateLimit] 0, h.2.2.1⟩

/-- The chat attempt loop never reads the model, temperature or max-token
arguments when the Claude provider family is selected. -/
theorem cccLoop_claude_args (cfg : Config) (hclaude : cfg.use_claude = true)
    (messages : List Msg) (m1 m2 : Option String) (t1 t2 : Int)
    (mt1 mt2 : Option Nat) :
    ∀ (outs : List (Outcome ChatResp)) (i : Nat) (w : Bool),
      cccLoop cfg messages m1 t1 mt1 outs i w
        = cccLoop cfg messages m2 t2 mt2 outs i w := by
  have hreq : attemptRequest cfg messages m1 t1 mt1
      = attemptRequest cfg messages m2 t2 mt2 := by
    simp [attemptRequest, hclaude]
  intro outs
  induction outs with
  | nil =>
    intro i w
    rw [cccLoop, cccLoop]
  | cons o rest ih =>
    intro i w
    by_cases h : num_retries ≤ i
    · rw [cccLoop_stop cfg messages m1 t1 mt1 _ i w h,
        cccLoop_stop cfg messages m2 t2 mt2 _ i w h]
    · have h2 : i < num_retries := Nat.not_le.mp h
      rcases o with r | _ | s
      · rw [cccLoop_success cfg messages m1 t1 mt1 rest i w r h2,
          cccLoop_success cfg messages m2 t2 mt2 rest i w r h2, hreq]
      · rw [cccLoop_rateLimit cfg messages m1 t1 mt1 rest i w h2,
          cccLoop_rateLimit cfg messages m2 t2 mt2 rest i w h2,
          ih (i + 1) true, hreq]
      · by_cases hs : s = 502
        · subst hs
          by_cases hl : i = num_retries - 1
          · subst hl
            rw [cccLoop_gateway_last cfg messages m1 t1 mt1 rest w,
              cccLoop_gateway_last cfg messages m2 t2 mt2 rest w, hreq]
          · rw [cccLoop_gateway cfg messages m1 t1 mt1 rest i w h2 hl,
              cccLoop_gateway cfg messages m2 t2 mt2 rest i w h2 hl,
              ih (i + 1) w, hreq]
        · rw [cccLoop_fatal cfg messages m1 t1 mt1 rest i w s hs h2,
            cccLoop_fatal cfg messages m2 t2 mt2 rest i w s hs h2, hreq]

/-- C10: with the Claude provider family selected, create_chat_completion
is independent of its model, temperature and max_tokens arguments: two
calls differing only in those arguments produce the same event trace
(hence identical provider requests) and the same result; the per-attempt
request is the fixed Claude request built from the messages and the fixed
ceiling MAX_TOKEN_ONCE, and carries no temperature; and every request the
stitcher issues carries that same ceiling and the configured Claude
model. -/
theorem claim10_claude_arg_independence (cfg : Config)
    (hclaude : cfg.use_claude = true) (messages : List Msg)
    (m1 m2 : Option String) (t1 t2 : Int) (mt1 mt2 : Option Nat)
    (outs : List (Outcome ChatResp)) (human ai cm q : String)
    (resps : List Resp) :
    create_chat_completion cfg messages m1 t1 mt1 outs
      = create_chat_completion cfg messages m2 t2 mt2 outs
    ∧ attemptRequest cfg messages m1 t1 mt1
      = ChatRequest.claude (reprMessages messages) MAX_TOKEN_ONCE
    ∧ (∀ req ∈ (sendReq human ai cm MAX_TOKEN_ONCE resps q).1,
        req.max_tokens_to_sample = MAX_TOKEN_ONCE ∧ req.model = cm) := by
  refine ⟨?_, by simp [attemptRequest, hclaude], ?_⟩
  · rw [create_chat_completion.eq_def, create_chat_completion.eq_def,
      cccLoop_claude_args cfg hclaude messages m1 m2 t1 t2 mt1 mt2 outs
        0 false]
  · intro req hreq
    exact ⟨(sendReq_fields human ai cm q MAX_TOKEN_ONCE resps req hreq).1,
      (sendReq_fields human ai cm q MAX_TOKEN_ONCE resps req hreq).2.1⟩

/-- Witness for C10 at concrete diverging arguments. -/
theorem claim10_witness :
    create_chat_completion cfgClaude [("user", "hi")] (some "gpt-4") 1
        (some 100) [Outcome.success (ChatResp.claude "ok")]
      = create_chat_completion cfgClaude [("user", "hi")] none 0 none
        [Outcome.success (ChatResp.claude "ok")] :=
  (claim10_claude_arg_independence cfgClaude rfl [("user", "hi")]
    (some "gpt-4") none 1 0 (some 100) none
    [Outcome.success (ChatResp.claude "ok")] "H:" "A:" "m" "q" []).1

end LlmUtils